import Mathlib

/-!
Verification of `scripts/bedrock_stream.py`, a 34-line helper that parses
four command-line arguments, issues one `converse_stream` request to the
Bedrock runtime service, and relays each streamed event as one JSON line
on standard output.

The script is embedded shallowly:
  * `Json` and `Json.render` model the values `json.dumps` serializes and
    its textual output (default separators, `ensure_ascii=True` escaping;
    integers only, which suffices for the values the script builds itself —
    streamed events are treated as opaque `Json` values).
  * `pyInt` models `int(s)`: the CPython pre-parse transform (Unicode
    whitespace and Unicode decimal digits folded to ASCII, other non-ASCII
    rejected), then optional sign and decimal digits with single interior
    underscores, with surrounding whitespace stripped.
  * `parseArgs` models the `argparse` configuration of `main`: four required
    options, `--max-tokens` converted with `type=int`; any failure is the
    standard usage error (exit status 2).
  * `runProgram` models one process invocation as a pure function from the
    environment (availability of `boto3`, outcome of the single remote call)
    and the raw arguments to the observable result: the ordered action
    trace, stdout lines, clients constructed, requests issued, exit status.
-/

namespace BedrockStream

/-- JSON values as produced by the script and the SDK event stream. -/
inductive Json where
  | null : Json
  | bool (b : Bool) : Json
  | num (n : Int) : Json
  | str (s : String) : Json
  | arr (xs : List Json) : Json
  | obj (fields : List (String × Json)) : Json

/-- Lowercase hexadecimal digit, as used by the `\uXXXX` escapes of
`json.dumps`. -/
def hexDigit (n : Nat) : Char :=
  if n < 10 then Char.ofNat (48 + n) else Char.ofNat (87 + n)

/-- Four lowercase hexadecimal digits. -/
def hex4 (n : Nat) : String :=
  String.mk [hexDigit (n / 4096 % 16), hexDigit (n / 256 % 16),
             hexDigit (n / 16 % 16), hexDigit (n % 16)]

/-- Escaping of one character inside a JSON string literal, following
`json.dumps` with its default `ensure_ascii=True`: the two-character
escapes for quote, backslash and common control characters, `\uXXXX` for
the remaining control characters and all non-ASCII characters (with a
surrogate pair above U+FFFF), and the character itself otherwise. -/
def escapeChar (c : Char) : String :=
  let n := c.toNat
  if n = 34 then "\\\""
  else if n = 92 then "\\\\"
  else if n = 10 then "\\n"
  else if n = 9 then "\\t"
  else if n = 13 then "\\r"
  else if n = 8 then "\\b"
  else if n = 12 then "\\f"
  else if n < 32 || 127 ≤ n then
    if n < 65536 then "\\u" ++ hex4 n
    else
      let m := n - 65536
      "\\u" ++ hex4 (55296 + m / 1024) ++ "\\u" ++ hex4 (56320 + m % 1024)
  else String.singleton c

/-- JSON string literal with quotes, per `json.dumps`. -/
def quoteString (s : String) : String :=
  "\"" ++ String.join (s.data.map escapeChar) ++ "\""

mutual

/-- Textual form of a JSON value, following `json.dumps` with its default
separators: items joined by a comma and a space, keys and values joined by
a colon and a space. -/
def Json.render : Json → String
  | .null => "null"
  | .bool true => "true"
  | .bool false => "false"
  | .num n => toString n
  | .str s => quoteString s
  | .arr xs => "[" ++ renderItems xs ++ "]"
  | .obj fs => "\x7b" ++ renderFields fs ++ "\x7d"

/-- Array items joined by a comma and a space. -/
def renderItems : List Json → String
  | [] => ""
  | [x] => Json.render x
  | x :: y :: rest => Json.render x ++ ", " ++ renderItems (y :: rest)

/-- Object fields joined by a comma and a space, key and value joined by a
colon and a space. -/
def renderFields : List (String × Json) → String
  | [] => ""
  | [(k, v)] => quoteString k ++ ": " ++ Json.render v
  | (k, v) :: f :: rest =>
      quoteString k ++ ": " ++ Json.render v ++ ", " ++ renderFields (f :: rest)

end

/-- A string is valid structured text when it is the serialization of some
JSON value. -/
def ValidJsonLine (s : String) : Prop := ∃ j : Json, Json.render j = s

/-- ASCII decimal digit test. -/
def isDecDigit (c : Char) : Bool := 48 ≤ c.toNat && c.toNat ≤ 57

/-- Numeric value of an ASCII decimal digit. -/
def digitVal (c : Char) : Nat := c.toNat - 48

/-- ASCII whitespace stripped around the digits by the numeric-string
parser (`Py_ISSPACE`): space and the five control characters 9 to 13. -/
def isPyWs (c : Char) : Bool :=
  c.toNat = 32 || c.toNat = 9 || c.toNat = 10 || c.toNat = 13 ||
  c.toNat = 11 || c.toNat = 12

/-- Non-ASCII code points that are whitespace for `int(s)`
(`Py_UNICODE_ISSPACE` above 127): NEL, NBSP, ogham space mark, the
U+2000 to U+200A spaces, line and paragraph separator, narrow no-break
space, medium mathematical space and ideographic space. -/
def isNonAsciiSpace (n : Nat) : Bool :=
  n = 133 || n = 160 || n = 5760 || (8192 ≤ n && n ≤ 8202) ||
  n = 8232 || n = 8233 || n = 8239 || n = 8287 || n = 12288

/-- First code points of the blocks of Unicode decimal digits
(Numeric_Type=Decimal, Unicode 14.0 as shipped with CPython 3.11): each
block is ten consecutive code points with values 0 to 9. -/
def decimalDigitBases : List Nat :=
  [48, 1632, 1776, 1984, 2406, 2534, 2662, 2790, 2918, 3046, 3174, 3302,
   3430, 3558, 3664, 3792, 3872, 4160, 4240, 6112, 6160, 6470, 6608, 6784,
   6800, 6992, 7088, 7232, 7248, 42528, 43216, 43264, 43472, 43504, 43600,
   44016, 65296, 66720, 68912, 69734, 69872, 69942, 70096, 70384, 70736,
   70864, 71248, 71360, 71472, 71904, 72016, 72784, 73040, 73120, 92768,
   92864, 93008, 120782, 120792, 120802, 120812, 120822, 123200, 123632,
   125264, 130032]

/-- Decimal value of a Unicode decimal digit (`Py_UNICODE_TODECIMAL`),
`none` for any other code point. -/
def decimalDigitVal (n : Nat) : Option Nat :=
  (decimalDigitBases.find? (fun b => b ≤ n && n ≤ b + 9)).map (fun b => n - b)

/-- The per-character transform `int(s)` applies before parsing
(`_PyUnicode_TransformDecimalAndSpaceToASCII`): code points below 127 are
kept, non-ASCII whitespace becomes a space, a Unicode decimal digit
becomes the ASCII digit of the same value, and every other non-ASCII code
point becomes a question mark, which the digit parser then rejects. -/
def toDecimalAndSpaceAscii (c : Char) : Char :=
  let n := c.toNat
  if n < 127 then c
  else if isNonAsciiSpace n then Char.ofNat 32
  else
    match decimalDigitVal n with
    | some d => Char.ofNat (48 + d)
    | none => Char.ofNat 63

/-- Digit sequence after the first digit: decimal digits with single
interior underscores, each underscore followed by a digit. -/
def parseDigitsCore : List Char → Nat → Option Nat
  | [], acc => some acc
  | c :: rest, acc =>
    if isDecDigit c then parseDigitsCore rest (acc * 10 + digitVal c)
    else if c.toNat = 95 then
      match rest with
      | d :: rest2 =>
          if isDecDigit d then parseDigitsCore rest2 (acc * 10 + digitVal d)
          else none
      | [] => none
    else none

/-- Nonempty digit sequence: a digit followed by digits with single interior
underscores. -/
def parseDigits : List Char → Option Nat
  | [] => none
  | c :: rest => if isDecDigit c then parseDigitsCore rest (digitVal c) else none

/-- Model of the Python built-in `int(s)` on a string: the characters are
first transformed as CPython does (Unicode whitespace to space, Unicode
decimal digits to ASCII digits, other non-ASCII to a rejected
placeholder), then surrounding whitespace is stripped and an optional
single ASCII sign precedes a nonempty digit sequence that may contain
single interior underscores; anything else raises `ValueError`, modelled
as `none`. -/
def pyInt (s : String) : Option Int :=
  let ds := s.data.map toDecimalAndSpaceAscii
  let cs := ((ds.dropWhile isPyWs).reverse.dropWhile isPyWs).reverse
  match cs with
  | c :: rest =>
      if c.toNat = 43 then (parseDigits rest).map Int.ofNat
      else if c.toNat = 45 then (parseDigits rest).map (fun n => -(Int.ofNat n))
      else (parseDigits cs).map Int.ofNat
  | [] => none

/-- Raw command-line input for `main`: for each of the four declared options
the value supplied on the command line, or `none` when the option is absent. -/
structure RawArgs where
  model : Option String
  region : Option String
  maxTokens : Option String
  prompt : Option String
deriving DecidableEq, Repr

/-- Parsed arguments, as held by the `argparse` namespace object after a
successful parse: `max-tokens` already converted by `type=int`. -/
structure Args where
  model : String
  region : String
  maxTokens : Int
  prompt : String
deriving DecidableEq, Repr

/-- Outcome of `p.parse_args()`: a namespace of values, or the standard
usage error with which `argparse` terminates the process (exit status 2). -/
inductive ParseResult where
  | ok (a : Args) : ParseResult
  | usageError : ParseResult
deriving DecidableEq, Repr

/-- Model of the parser configured in `main`: `--model`, `--region`,
`--max-tokens` (with `type=int`) and `--prompt`, all `required=True`.
A missing option or a failing `int` conversion is a usage error. -/
def parseArgs (raw : RawArgs) : ParseResult :=
  match raw.model, raw.region, raw.maxTokens, raw.prompt with
  | some m, some r, some mt, some pr =>
      match pyInt mt with
      | some n => .ok ⟨m, r, n, pr⟩
      | none => .usageError
  | _, _, _, _ => .usageError

/-- A service client as returned by `boto3.client(service, region_name=...)`. -/
structure Client where
  service : String
  region : String
deriving DecidableEq, Repr

/-- One `converse_stream` request: the keyword arguments the script passes. -/
structure Request where
  modelId : String
  messages : Json
  inferenceConfig : Json

/-- The message list the script builds: one user message wrapping the prompt
text in the content structure of the Converse API. -/
def mkMessages (prompt : String) : Json :=
  .arr [.obj [("role", .str "user"),
              ("content", .arr [.obj [("text", .str prompt)]])]]

/-- The inference configuration the script builds: the token limit only. -/
def mkInferenceConfig (maxTokens : Int) : Json :=
  .obj [("maxTokens", .num maxTokens)]

/-- The request `main` issues from the parsed arguments. -/
def mkRequest (a : Args) : Request :=
  ⟨a.model, mkMessages a.prompt, mkInferenceConfig a.maxTokens⟩

/-- Response of a successful `converse_stream` call: the events the stream
yields before completing, and, when the stream raises mid-consumption, the
fault that interrupts it after those events. -/
structure StreamResponse where
  events : List Json
  midStreamFault : Option String

/-- Outcome of the remote call itself: a response stream, or a fault raised
by the call (network fault, authentication failure, service error). -/
inductive CallOutcome where
  | ok (resp : StreamResponse) : CallOutcome
  | fault (e : String) : CallOutcome

/-- External environment of one invocation: whether `import boto3` succeeds,
and what the single remote call would produce. -/
structure Env where
  boto3Available : Bool
  callResult : CallOutcome

/-- Observable actions of the process, in order. `bootstrap` stands for a
runtime environment mutation provisioning a missing dependency (such as
creating the venv named in the module docstring); it is part of the action
vocabulary so that its absence from every trace is expressible. -/
inductive Action where
  | consume (e : Json) : Action
  | emitFlush (line : String) : Action
  | bootstrap (path : String) : Action

/-- The `for event in resp["stream"]` loop: pull one event, immediately
serialize and print it with `flush=True`, then pull the next. -/
def streamLoop : List Json → List Action
  | [] => []
  | e :: rest => .consume e :: .emitFlush (Json.render e) :: streamLoop rest

/-- Lines written to standard output by a trace of actions. -/
def emittedLines : List Action → List String
  | [] => []
  | .emitFlush s :: rest => s :: emittedLines rest
  | .consume _ :: rest => emittedLines rest
  | .bootstrap _ :: rest => emittedLines rest

/-- How the process terminates: `sys.exit` or falling off the end of the
script (`code`), or an exception left unhandled (`uncaught`). -/
inductive ExitStatus where
  | code (n : Nat) : ExitStatus
  | uncaught (e : String) : ExitStatus
deriving DecidableEq, Repr

/-- A termination that is not a normal exit with status 0. -/
def ExitStatus.isFailure : ExitStatus → Bool
  | .code n => n ≠ 0
  | .uncaught _ => true

/-- Everything observable about one invocation. -/
structure RunResult where
  actions : List Action
  stdoutLines : List String
  clients : List Client
  requests : List Request
  exitStatus : ExitStatus

/-- The error object printed by the import guard. -/
def importErrorLine : String :=
  Json.render (.obj [("error", .str "boto3 not available")])

/-- One invocation of `scripts/bedrock_stream.py`, line by line. The import
guard runs first: on `ImportError` it prints one JSON error line with
`flush=True` and calls `sys.exit(1)`. Otherwise `main` parses the four
required arguments (a failure is the usage error of `argparse`, before any
client exists), constructs the `bedrock-runtime` client for the given
region, issues the single `converse_stream` request, and iterates the
response stream, printing each event as one flushed JSON line; a fault of
the call or of the stream is not caught and terminates the process
abnormally, and a normally exhausted stream lets `main` return, ending the
process with status 0. -/
def runProgram (env : Env) (raw : RawArgs) : RunResult :=
  if env.boto3Available then
    match parseArgs raw with
    | .usageError =>
        { actions := [], stdoutLines := [], clients := [], requests := [],
          exitStatus := .code 2 }
    | .ok args =>
        let client : Client := ⟨"bedrock-runtime", args.region⟩
        let req := mkRequest args
        match env.callResult with
        | .fault e =>
            { actions := [], stdoutLines := [], clients := [client],
              requests := [req], exitStatus := .uncaught e }
        | .ok resp =>
            let acts := streamLoop resp.events
            { actions := acts, stdoutLines := emittedLines acts,
              clients := [client], requests := [req],
              exitStatus :=
                match resp.midStreamFault with
                | some e => .uncaught e
                | none => .code 0 }
  else
    { actions := [.emitFlush importErrorLine],
      stdoutLines := [importErrorLine], clients := [], requests := [],
      exitStatus := .code 1 }

/-! Helper lemmas shared by the claim theorems. -/

/-- The loop prints exactly one line per event, the serialization of that
event, in the order the events are consumed. -/
theorem emittedLines_streamLoop (evs : List Json) :
    emittedLines (streamLoop evs) = evs.map Json.render := by
  induction evs with
  | nil => rfl
  | cons e rest ih => simp [streamLoop, emittedLines, ih]

/-- Positions of the actions of the loop: the consumption of event `i` sits
at index `2 * i` and is immediately followed, at index `2 * i + 1`, by the
flushed emission of its line; the next consumption only comes after. -/
theorem streamLoop_getElem (evs : List Json) (i : Nat) (hi : i < evs.length) :
    (streamLoop evs)[2 * i]? = some (.consume evs[i]) ∧
    (streamLoop evs)[2 * i + 1]? = some (.emitFlush (Json.render evs[i])) := by
  induction evs generalizing i with
  | nil => exact absurd hi (Nat.not_lt_zero i)
  | cons e rest ih =>
    cases i with
    | zero => simp [streamLoop]
    | succ k =>
      have hk : k < rest.length := Nat.lt_of_succ_lt_succ hi
      have e1 : 2 * (k + 1) = 2 * k + 1 + 1 := by ring
      rw [e1]
      simpa [streamLoop] using ih k hk

/-- Standard output of a run whose remote call returns a stream. -/
theorem runProgram_stdout_ok (env : Env) (raw : RawArgs) (args : Args)
    (resp : StreamResponse) (hb : env.boto3Available = true)
    (hp : parseArgs raw = .ok args) (hc : env.callResult = .ok resp) :
    (runProgram env raw).stdoutLines = resp.events.map Json.render := by
  simp [runProgram, hb, hp, hc, emittedLines_streamLoop]

/-- Evaluation of the `int(s)` model on both directions of acceptance:
Unicode decimal digits and Unicode whitespace are accepted with the value
`int()` computes, while letters, misplaced underscores and interior
whitespace are rejected. -/
theorem pyInt_eval_examples :
    pyInt "٥" = some 5 ∧ pyInt "١٢٣" = some 123 ∧ pyInt "１２３" = some 123 ∧
    pyInt "\u00A042" = some 42 ∧ pyInt " -1_0 " = some (-10) ∧
    pyInt "many" = none ∧ pyInt "1__0" = none ∧ pyInt "_1" = none ∧
    pyInt "1_" = none ∧ pyInt "+ 5" = none ∧ pyInt "" = none := by
  decide

/-- The import guard line, evaluated: exactly the JSON text the script
prints when boto3 is missing. -/
theorem importErrorLine_eq :
    importErrorLine = "\x7b\"error\": \"boto3 not available\"\x7d" := by
  rfl

/-! Claim theorems. -/

/-- Claim C1: if the required client library (boto3) cannot be imported, the
program emits exactly one line on standard output, that line is the JSON
object with the single field error mapped to the text
boto3 not available, the process exits with status 1, and no other output
is produced (the whole action trace is that one flushed line; no client is
constructed and no request is issued). -/
theorem c1_missing_library_single_error_line (env : Env) (raw : RawArgs)
    (h : env.boto3Available = false) :
    (runProgram env raw).stdoutLines =
        ["\x7b\"error\": \"boto3 not available\"\x7d"] ∧
    (runProgram env raw).exitStatus = .code 1 ∧
    (runProgram env raw).actions =
        [.emitFlush "\x7b\"error\": \"boto3 not available\"\x7d"] ∧
    (runProgram env raw).clients = [] ∧
    (runProgram env raw).requests = [] := by
  simp [runProgram, h, importErrorLine_eq]

/-- Witness for C1 at a concrete environment. -/
theorem c1_witness :
    (runProgram ⟨false, .fault "ImportError"⟩ ⟨none, none, none, none⟩).stdoutLines =
        ["\x7b\"error\": \"boto3 not available\"\x7d"] ∧
    (runProgram ⟨false, .fault "ImportError"⟩ ⟨none, none, none, none⟩).exitStatus = .code 1 ∧
    (runProgram ⟨false, .fault "ImportError"⟩ ⟨none, none, none, none⟩).actions =
        [.emitFlush "\x7b\"error\": \"boto3 not available\"\x7d"] ∧
    (runProgram ⟨false, .fault "ImportError"⟩ ⟨none, none, none, none⟩).clients = [] ∧
    (runProgram ⟨false, .fault "ImportError"⟩ ⟨none, none, none, none⟩).requests = [] :=
  c1_missing_library_single_error_line ⟨false, .fault "ImportError"⟩
    ⟨none, none, none, none⟩ rfl

/-- Claim C2: for every sequence of events yielded by the upstream response
stream, the program emits exactly one output line per yielded event, in the
order yielded: standard output is precisely the map of the serializer over
the event sequence, so no event is skipped, none reordered, and never two
events share a line. -/
theorem c2_one_line_per_event_in_order (env : Env) (raw : RawArgs)
    (args : Args) (resp : StreamResponse) (hb : env.boto3Available = true)
    (hp : parseArgs raw = .ok args) (hc : env.callResult = .ok resp) :
    (runProgram env raw).stdoutLines = resp.events.map Json.render := by
  exact runProgram_stdout_ok env raw args resp hb hp hc

/-- Witness for C2 at a concrete two-event stream. -/
theorem c2_witness :
    (runProgram ⟨true, .ok ⟨[.obj [("a", .num 1)], .str "x"], none⟩⟩
        ⟨some "m", some "r", some "5", some "p"⟩).stdoutLines =
      [Json.obj [("a", .num 1)], Json.str "x"].map Json.render :=
  c2_one_line_per_event_in_order
    ⟨true, .ok ⟨[.obj [("a", .num 1)], .str "x"], none⟩⟩
    ⟨some "m", some "r", some "5", some "p"⟩ ⟨"m", "r", 5, "p"⟩
    ⟨[.obj [("a", .num 1)], .str "x"], none⟩ rfl rfl rfl

/-- Claim C3: for every parsed argument set, the program constructs exactly
one client, for the bedrock-runtime service in the given region, and issues
exactly one streaming request whose model identifier is the model argument,
whose message list is the single user message wrapping the prompt text in
the content structure of the Converse API, and whose inference
configuration carries exactly the parsed token limit. -/
theorem c3_single_request_fields (env : Env) (m r t pr : String) (n : Int)
    (hb : env.boto3Available = true) (ht : pyInt t = some n) :
    (runProgram env ⟨some m, some r, some t, some pr⟩).clients =
        [⟨"bedrock-runtime", r⟩] ∧
    (runProgram env ⟨some m, some r, some t, some pr⟩).requests =
        [⟨m,
          .arr [.obj [("role", .str "user"),
                      ("content", .arr [.obj [("text", .str pr)]])]],
          .obj [("maxTokens", .num n)]⟩] := by
  have hp : parseArgs ⟨some m, some r, some t, some pr⟩ = .ok ⟨m, r, n, pr⟩ := by
    simp [parseArgs, ht]
  cases hc : env.callResult <;>
    simp [runProgram, hb, hp, hc, mkRequest, mkMessages, mkInferenceConfig]

/-- Witness for C3 at concrete arguments. -/
theorem c3_witness :
    (runProgram ⟨true, .ok ⟨[], none⟩⟩
        ⟨some "anthropic.claude", some "us-east-1", some "512", some "hi"⟩).clients =
        [⟨"bedrock-runtime", "us-east-1"⟩] ∧
    (runProgram ⟨true, .ok ⟨[], none⟩⟩
        ⟨some "anthropic.claude", some "us-east-1", some "512", some "hi"⟩).requests =
        [⟨"anthropic.claude",
          .arr [.obj [("role", .str "user"),
                      ("content", .arr [.obj [("text", .str "hi")]])]],
          .obj [("maxTokens", .num 512)]⟩] :=
  c3_single_request_fields ⟨true, .ok ⟨[], none⟩⟩
    "anthropic.claude" "us-east-1" "512" "hi" 512 rfl rfl

/-- Claim C4: given the four required arguments parse and the stream
completes normally, every emitted line is valid structured text (the
serialization of some JSON value) and the program exits with status 0. -/
theorem c4_lines_valid_json_exit_zero (env : Env) (raw : RawArgs)
    (args : Args) (resp : StreamResponse) (hb : env.boto3Available = true)
    (hp : parseArgs raw = .ok args) (hc : env.callResult = .ok resp)
    (hf : resp.midStreamFault = none) :
    (∀ line ∈ (runProgram env raw).stdoutLines, ValidJsonLine line) ∧
    (runProgram env raw).exitStatus = .code 0 := by
  constructor
  · intro line hl
    rw [runProgram_stdout_ok env raw args resp hb hp hc] at hl
    obtain ⟨j, _, rfl⟩ := List.mem_map.1 hl
    exact ⟨j, rfl⟩
  · simp [runProgram, hb, hp, hc, hf]

/-- Witness for C4 at a concrete one-event stream. -/
theorem c4_witness :
    (∀ line ∈ (runProgram ⟨true, .ok ⟨[.str "tok"], none⟩⟩
        ⟨some "m", some "r", some "5", some "p"⟩).stdoutLines, ValidJsonLine line) ∧
    (runProgram ⟨true, .ok ⟨[.str "tok"], none⟩⟩
        ⟨some "m", some "r", some "5", some "p"⟩).exitStatus = .code 0 :=
  c4_lines_valid_json_exit_zero ⟨true, .ok ⟨[.str "tok"], none⟩⟩
    ⟨some "m", some "r", some "5", some "p"⟩ ⟨"m", "r", 5, "p"⟩
    ⟨[.str "tok"], none⟩ rfl rfl rfl rfl

/-- Claim C5: when any of the four required options is absent from the
command line, the run ends in a failure status and no network interaction
occurs: no client is constructed and no request is issued. -/
theorem c5_missing_argument_no_network (env : Env) (raw : RawArgs)
    (h : raw.model = none ∨ raw.region = none ∨ raw.maxTokens = none ∨
         raw.prompt = none) :
    (runProgram env raw).clients = [] ∧
    (runProgram env raw).requests = [] ∧
    ((runProgram env raw).exitStatus).isFailure = true := by
  obtain ⟨om, or, ot, op⟩ := raw
  have hp : parseArgs ⟨om, or, ot, op⟩ = .usageError := by
    cases om <;> cases or <;> cases ot <;> cases op <;>
      first
        | rfl
        | (exfalso; rcases h with h | h | h | h <;> exact Option.noConfusion h)
  cases hb : env.boto3Available <;>
    simp [runProgram, hb, hp, ExitStatus.isFailure]

/-- Witness for C5 with the model argument absent. -/
theorem c5_witness :
    (runProgram ⟨true, .ok ⟨[], none⟩⟩ ⟨none, some "r", some "5", some "p"⟩).clients = [] ∧
    (runProgram ⟨true, .ok ⟨[], none⟩⟩ ⟨none, some "r", some "5", some "p"⟩).requests = [] ∧
    ((runProgram ⟨true, .ok ⟨[], none⟩⟩
        ⟨none, some "r", some "5", some "p"⟩).exitStatus).isFailure = true :=
  c5_missing_argument_no_network ⟨true, .ok ⟨[], none⟩⟩
    ⟨none, some "r", some "5", some "p"⟩ (Or.inl rfl)

/-- Claim C6: when the max-tokens value does not parse as an integer,
argument parsing fails (the usage error of argparse) and the run ends in a
failure status with no client constructed and no request issued. -/
theorem c6_bad_max_tokens_no_network (env : Env) (raw : RawArgs) (s : String)
    (hm : raw.maxTokens = some s) (hi : pyInt s = none) :
    parseArgs raw = .usageError ∧
    (runProgram env raw).clients = [] ∧
    (runProgram env raw).requests = [] ∧
    ((runProgram env raw).exitStatus).isFailure = true := by
  obtain ⟨om, or, ot, op⟩ := raw
  simp only at hm
  subst hm
  have hp : parseArgs ⟨om, or, some s, op⟩ = .usageError := by
    cases om <;> cases or <;> cases op <;> simp [parseArgs, hi]
  refine ⟨hp, ?_⟩
  cases hb : env.boto3Available <;>
    simp [runProgram, hb, hp, ExitStatus.isFailure]

/-- Witness for C6 with a non-numeric max-tokens value. -/
theorem c6_witness :
    parseArgs ⟨some "m", some "r", some "many", some "p"⟩ = .usageError ∧
    (runProgram ⟨true, .ok ⟨[], none⟩⟩
        ⟨some "m", some "r", some "many", some "p"⟩).clients = [] ∧
    (runProgram ⟨true, .ok ⟨[], none⟩⟩
        ⟨some "m", some "r", some "many", some "p"⟩).requests = [] ∧
    ((runProgram ⟨true, .ok ⟨[], none⟩⟩
        ⟨some "m", some "r", some "many", some "p"⟩).exitStatus).isFailure = true :=
  c6_bad_max_tokens_no_network ⟨true, .ok ⟨[], none⟩⟩
    ⟨some "m", some "r", some "many", some "p"⟩ "many" rfl rfl

/-- Claim C7: a fault raised by the remote call, or raised mid-stream after
some events, is not caught: the process terminates abnormally with exactly
that fault, and exactly one request was issued, so neither the request nor
the stream consumption is ever retried. -/
theorem c7_fault_propagates_no_retry (env : Env) (raw : RawArgs)
    (args : Args) (e : String) (hb : env.boto3Available = true)
    (hp : parseArgs raw = .ok args)
    (h : env.callResult = .fault e ∨
         ∃ resp, env.callResult = .ok resp ∧ resp.midStreamFault = some e) :
    (runProgram env raw).exitStatus = .uncaught e ∧
    (runProgram env raw).requests = [mkRequest args] ∧
    (runProgram env raw).requests.length = 1 := by
  rcases h with hc | ⟨resp, hc, hf⟩
  · simp [runProgram, hb, hp, hc]
  · simp [runProgram, hb, hp, hc, hf]

/-- Witness for C7 at a concrete mid-stream fault. -/
theorem c7_witness :
    (runProgram ⟨true, .ok ⟨[.str "tok"], some "ThrottlingException"⟩⟩
        ⟨some "m", some "r", some "5", some "p"⟩).exitStatus =
      .uncaught "ThrottlingException" ∧
    (runProgram ⟨true, .ok ⟨[.str "tok"], some "ThrottlingException"⟩⟩
        ⟨some "m", some "r", some "5", some "p"⟩).requests =
      [mkRequest ⟨"m", "r", 5, "p"⟩] ∧
    (runProgram ⟨true, .ok ⟨[.str "tok"], some "ThrottlingException"⟩⟩
        ⟨some "m", some "r", some "5", some "p"⟩).requests.length = 1 :=
  c7_fault_propagates_no_retry
    ⟨true, .ok ⟨[.str "tok"], some "ThrottlingException"⟩⟩
    ⟨some "m", some "r", some "5", some "p"⟩ ⟨"m", "r", 5, "p"⟩
    "ThrottlingException"
    rfl rfl (Or.inr ⟨⟨[.str "tok"], some "ThrottlingException"⟩, rfl, rfl⟩)

/-- Claim C8: the action trace of a run is exactly the loop trace, in which
the consumption of event i (index 2i) is immediately followed, at index
2i + 1, by the flushed emission of its serialized line, before the next
consumption at index 2i + 2: each event is serialized and flushed upon
receipt, with no buffering across records. -/
theorem c8_immediate_flush_per_event (env : Env) (raw : RawArgs)
    (args : Args) (resp : StreamResponse) (i : Nat)
    (hb : env.boto3Available = true) (hp : parseArgs raw = .ok args)
    (hc : env.callResult = .ok resp) (hi : i < resp.events.length) :
    (runProgram env raw).actions = streamLoop resp.events ∧
    (runProgram env raw).actions[2 * i]? = some (.consume resp.events[i]) ∧
    (runProgram env raw).actions[2 * i + 1]? =
      some (.emitFlush (Json.render resp.events[i])) := by
  have ha : (runProgram env raw).actions = streamLoop resp.events := by
    simp [runProgram, hb, hp, hc]
  refine ⟨ha, ?_, ?_⟩
  · rw [ha]; exact (streamLoop_getElem resp.events i hi).1
  · rw [ha]; exact (streamLoop_getElem resp.events i hi).2

/-- Witness for C8 at the second event of a concrete two-event stream. -/
theorem c8_witness :
    (runProgram ⟨true, .ok ⟨[.str "a", .str "b"], none⟩⟩
        ⟨some "m", some "r", some "5", some "p"⟩).actions =
      streamLoop [.str "a", .str "b"] ∧
    (runProgram ⟨true, .ok ⟨[.str "a", .str "b"], none⟩⟩
        ⟨some "m", some "r", some "5", some "p"⟩).actions[2 * 1]? =
      some (.consume (Json.str "b")) ∧
    (runProgram ⟨true, .ok ⟨[.str "a", .str "b"], none⟩⟩
        ⟨some "m", some "r", some "5", some "p"⟩).actions[2 * 1 + 1]? =
      some (.emitFlush (Json.render (Json.str "b"))) :=
  c8_immediate_flush_per_event
    ⟨true, .ok ⟨[.str "a", .str "b"], none⟩⟩
    ⟨some "m", some "r", some "5", some "p"⟩ ⟨"m", "r", 5, "p"⟩
    ⟨[.str "a", .str "b"], none⟩ 1 rfl rfl rfl (by decide)

/-- Claim C9 concerns the auto-bootstrap claim of the module docstring: at
an invocation with the client library missing, the complete observable run
is one flushed error line and exit status 1 — the trace contains no
bootstrap action, so no runtime environment mutation to provision the
missing dependency is ever attempted, contradicting the docstring. -/
theorem c9_no_bootstrap_on_missing_dependency :
    runProgram ⟨false, .fault "ImportError"⟩ ⟨none, none, none, none⟩ =
      ⟨[.emitFlush importErrorLine], [importErrorLine], [], [], .code 1⟩ :=
  rfl

/-- Claim C10: the program is deterministic in its inputs: two runs given
equal raw arguments, equal library availability and an equal remote-call
outcome (in particular the same yielded event sequence) produce identical
standard output and identical exit status. -/
theorem c10_deterministic (env1 env2 : Env) (raw1 raw2 : RawArgs)
    (hr : raw1 = raw2) (hb : env1.boto3Available = env2.boto3Available)
    (hc : env1.callResult = env2.callResult) :
    (runProgram env1 raw1).stdoutLines = (runProgram env2 raw2).stdoutLines ∧
    (runProgram env1 raw1).exitStatus = (runProgram env2 raw2).exitStatus := by
  obtain ⟨b1, c1⟩ := env1
  obtain ⟨b2, c2⟩ := env2
  simp only at hb hc
  subst hr hb hc
  exact ⟨rfl, rfl⟩

/-- Witness for C10 at two syntactically distinct but equal runs. -/
theorem c10_witness :
    (runProgram ⟨true, .ok ⟨[.str "a"], none⟩⟩
        ⟨some "m", some "r", some "5", some "p"⟩).stdoutLines =
      (runProgram ⟨true, .ok ⟨[.str "a"], none⟩⟩
        ⟨some "m", some "r", some "5", some "p"⟩).stdoutLines ∧
    (runProgram ⟨true, .ok ⟨[.str "a"], none⟩⟩
        ⟨some "m", some "r", some "5", some "p"⟩).exitStatus =
      (runProgram ⟨true, .ok ⟨[.str "a"], none⟩⟩
        ⟨some "m", some "r", some "5", some "p"⟩).exitStatus :=
  c10_deterministic ⟨true, .ok ⟨[.str "a"], none⟩⟩ ⟨true, .ok ⟨[.str "a"], none⟩⟩
    ⟨some "m", some "r", some "5", some "p"⟩ ⟨some "m", some "r", some "5", some "p"⟩
    rfl rfl rfl

end BedrockStream
